import Mathlib

/-!
Verification of the `move` repository (a Rightmove property-listing crawler
with Google-Maps directions enrichment) against its natural-language
specification.  The Python sources under `src/` are shallowly embedded below:
pure functions become Lean functions, Python exceptions become `Except PyErr`,
Python values flowing through JSON-shaped data become the inductive `PyVal`,
and the mutable scraper object becomes explicit state passing.  Python `str`
primitives (`startswith`, `replace`, `rstrip`, `split`) are re-implemented
over `List Char` so that every definition evaluates inside the kernel.
-/

set_option maxRecDepth 100000

namespace Move

/-- Python exceptions that the embedded code can raise. -/
inductive PyErr where
  | keyError (key : String)
  | indexError
  | typeError (msg : String)
  | valueError (msg : String)
  | attributeError (msg : String)
deriving DecidableEq

/-- Python values as they appear in the parsed JSON page-model blobs and API
responses: `none` is Python `None`, `nan` is `numpy.nan` / `float("nan")`,
dictionaries are insertion-ordered association lists with string keys. -/
inductive PyVal where
  | none : PyVal
  | nan : PyVal
  | bool (b : Bool) : PyVal
  | int (n : Int) : PyVal
  | str (s : String) : PyVal
  | list (xs : List PyVal) : PyVal
  | dict (kvs : List (String × PyVal)) : PyVal

/-- Python truthiness (`bool(v)`): `None`, `0`, `""`, `[]`, `{}` are falsy;
note that `float("nan")` is truthy in Python. -/
def truthy : PyVal → Bool
  | .none => false
  | .nan => true
  | .bool b => b
  | .int n => n != 0
  | .str s => !s.isEmpty
  | .list xs => !xs.isEmpty
  | .dict kvs => !kvs.isEmpty

mutual

/-- Python `==` on the modelled values (same-constructor structural equality;
`nan == nan` is `False` in Python, reproduced here). -/
def pyEq : PyVal → PyVal → Bool
  | .none, .none => true
  | .nan, _ => false
  | .bool a, .bool b => a == b
  | .int a, .int b => a == b
  | .str a, .str b => a == b
  | .list a, .list b => pyEqList a b
  | .dict a, .dict b => pyEqDict a b
  | _, _ => false

/-- Elementwise Python `==` on lists. -/
def pyEqList : List PyVal → List PyVal → Bool
  | [], [] => true
  | x :: xs, y :: ys => pyEq x y && pyEqList xs ys
  | _, _ => false

/-- Pairwise Python `==` on (insertion-ordered) dictionaries. -/
def pyEqDict : List (String × PyVal) → List (String × PyVal) → Bool
  | [], [] => true
  | (k, x) :: xs, (l, y) :: ys => k == l && pyEq x y && pyEqDict xs ys
  | _, _ => false

end

/-- First binding of a key in an association-list dictionary. -/
def pyLookup (kvs : List (String × PyVal)) (k : String) : Option PyVal :=
  match kvs with
  | [] => Option.none
  | (k', v) :: rest => if k' = k then some v else pyLookup rest k

/-- Python `dict.get(k, d)` on the raw association list. -/
def dictGetD (kvs : List (String × PyVal)) (k : String) (d : PyVal) : PyVal :=
  (pyLookup kvs k).getD d

/-- Python `v.get(k, d)`: only dictionaries have a `get` attribute. -/
def pyGet (v : PyVal) (k : String) (d : PyVal) : Except PyErr PyVal :=
  match v with
  | .dict kvs => .ok (dictGetD kvs k d)
  | _ => .error (.attributeError "get")

/-- Python `v[k]` for a string key: `KeyError` on a missing dictionary key,
`TypeError` when `v` is not subscriptable by a string. -/
def pyGetItemStr (v : PyVal) (k : String) : Except PyErr PyVal :=
  match v with
  | .dict kvs =>
    match pyLookup kvs k with
    | some x => .ok x
    | Option.none => .error (.keyError k)
  | _ => .error (.typeError "value is not subscriptable by a string key")

/-- Python `v[i]` for an integer index: `IndexError` past the end of a list,
`KeyError` when `v` is a dictionary (our dictionaries have string keys only),
`TypeError` otherwise. -/
def pyGetItemIdx (v : PyVal) (i : Nat) : Except PyErr PyVal :=
  match v with
  | .list xs =>
    match xs.get? i with
    | some x => .ok x
    | Option.none => .error .indexError
  | .dict _ => .error (.keyError (toString i))
  | _ => .error (.typeError "value is not subscriptable by an integer index")

/-- Python `d[k] = v` on an insertion-ordered dictionary: replace in place if
the key exists, otherwise append. -/
def dictSet (kvs : List (String × PyVal)) (k : String) (v : PyVal) :
    List (String × PyVal) :=
  match kvs with
  | [] => [(k, v)]
  | (k', v') :: rest =>
    if k' = k then (k, v) :: rest else (k', v') :: dictSet rest k v

/-! ## Python string primitives over `List Char` -/

/-- Check that `p` is a prefix of `s` (`str.startswith`). -/
def startswithChars : List Char → List Char → Bool
  | _, [] => true
  | [], _ :: _ => false
  | c :: cs, d :: ds => c = d && startswithChars cs ds

/-- Python `s.startswith(p)`. -/
def pyStartswith (s p : String) : Bool :=
  startswithChars s.data p.data

/-- Replace every occurrence of a non-empty pattern (`str.replace` core loop);
the fuel argument is the length of the subject string. -/
def replaceChars (old new : List Char) : Nat → List Char → List Char
  | 0, s => s
  | _ + 1, [] => []
  | fuel + 1, c :: rest =>
    if startswithChars (c :: rest) old then
      new ++ replaceChars old new fuel (List.drop old.length (c :: rest))
    else
      c :: replaceChars old new fuel rest

/-- Python `s.replace(old, new)`.  (The degenerate empty-pattern case, which
Python treats as inserting `new` between every character, never occurs in the
embedded call sites and is modelled as the identity.) -/
def pyReplaceStr (s old new : String) : String :=
  if old.data.isEmpty then s
  else String.mk (replaceChars old.data new.data s.data.length s.data)

/-- Python `s.rstrip(c)` for a single strip character. -/
def pyRstrip (s : String) (c : Char) : String :=
  String.mk (s.data.reverse.dropWhile (fun d => d = c)).reverse

/-- Splitter for Python `s.split()`: accumulate maximal runs of
non-whitespace characters, dropping the empty runs. -/
def splitWsAux : List Char → List Char → List String
  | [], acc => if acc.isEmpty then [] else [String.mk acc.reverse]
  | c :: rest, acc =>
    if c.isWhitespace then
      (if acc.isEmpty then [] else [String.mk acc.reverse]) ++ splitWsAux rest []
    else
      splitWsAux rest (c :: acc)

/-- Python `s.split()` (split on whitespace runs, no empty fields). -/
def pySplitWs (s : String) : List String :=
  splitWsAux s.data []

/-! ## `src/helpers.py` -/

/-- Truncation toward zero, the behaviour of Python `int()` on a number and of
the integer part returned by `math.modf` (`-⌊-q⌋ = ⌈q⌉` for negative `q`). -/
def pytrunc (q : ℚ) : ℤ :=
  if 0 ≤ q then ⌊q⌋ else -⌊-q⌋

/-- Components of the rendered DMS string
`"{|d|}º{|m|}'{|s| to 2 decimals}\"{compass}"`; the textual rendering
concatenates these four fields. -/
structure DMS where
  degrees : Nat
  minutes : Nat
  seconds : ℚ
  compass : Char

/-- Axis selector: the `type` argument of `deg_to_dms` (`'lat'` / `'lon'`). -/
inductive CoordType where
  | lat
  | lon

/-- Embedding of `helpers.deg_to_dms` (src/helpers.py lines 4-15): split the
decimal-degree value with `math.modf`, truncate the pieces with `int()`, and
pick the hemisphere letter from `('N', 'S')` for latitude and `('W', 'E')` for
longitude — the first letter when `d >= 0`, the second otherwise. -/
def deg_to_dms (deg : ℚ) (ty : CoordType) : DMS :=
  let number : ℚ := (pytrunc deg : ℤ)
  let decimals : ℚ := deg - number
  let d : ℤ := pytrunc number
  let m : ℤ := pytrunc (decimals * 60)
  let s : ℚ := (deg - (d : ℚ) - (m : ℚ) / 60) * 3600
  let compass : Char × Char :=
    match ty with
    | .lat => ('N', 'S')
    | .lon => ('W', 'E')
  let compass_str : Char := if 0 ≤ d then compass.1 else compass.2
  ⟨d.natAbs, m.natAbs, |s|, compass_str⟩

/-- Embedding of `helpers.nested_key_exists` (src/helpers.py lines 18-27):
follow the key path with `dictionary[key]`, catching only `KeyError`; any
other exception raised by the subscript (for example `TypeError` on a
non-dictionary) propagates. -/
def nested_key_exists (dictionary : PyVal) : List String → Except PyErr Bool
  | [] => .ok true
  | k :: ks =>
    match pyGetItemStr dictionary k with
    | .ok v => nested_key_exists v ks
    | .error (.keyError _) => .ok false
    | .error e => .error e

/-- Embedding of `helpers.replace_all_whitespaces` (src/helpers.py
lines 30-32): `replace_char.join(string.split())`. -/
def replace_all_whitespaces (s : String) (replace_char : String) : String :=
  String.intercalate replace_char (pySplitWs s)

/-! ## `src/scrapers.py`: constants, URL validation, page count -/

/-- Base url for the Rightmove website (`RightmoveScraper.BASE_URL`). -/
def BASE_URL : String := "https://www.rightmove.co.uk"

/-- Maximum number of accessible result pages
(`RightmoveScraper.MAX_ACCESSIBLE_PAGES`). -/
def MAX_ACCESSIBLE_PAGES : Nat := 42

/-- Maximum number of properties shown on a single page
(`RightmoveScraper.MAX_RESULT_PER_PAGE`). -/
def MAX_RESULT_PER_PAGE : Nat := 24

/-- Embedding of `RightmoveScraper._validate_url` (src/scrapers.py lines
97-108) as a function of the stored url and first-page status code: build the
six accepted prefixes, collect the `startswith` conditions plus the condition
`status_code == 200`, and raise `ValueError` when none of the conditions
holds (the source tests `not any(conditions)`). -/
def validate_url (url : String) (status_code : Nat) : Except PyErr Unit :=
  let protocols : List String := ["http", "https"]
  let types : List String :=
    ["property-to-rent", "property-for-sale", "new-homes-for-sale"]
  let urls : List String :=
    protocols.flatMap (fun p =>
      types.map (fun t => p ++ "://www.rightmove.co.uk/" ++ t ++ "/find.html?"))
  let conditions : List Bool :=
    urls.map (fun u => pyStartswith url u) ++ [status_code == 200]
  if !conditions.any id then
    .error (.valueError ("Invalid rightmove search URL:\n\n\t" ++ url))
  else
    .ok ()

/-- Embedding of the `RightmoveScraper.page_count` property (src/scrapers.py
lines 134-145) as a function of `results_count_display`: integer-divide by
`MAX_RESULT_PER_PAGE`, add one when there is a remainder, and cap the result
at `MAX_ACCESSIBLE_PAGES`. -/
def page_count (results_count_display : Nat) : Nat :=
  let pc := results_count_display / MAX_RESULT_PER_PAGE +
    (if results_count_display % MAX_RESULT_PER_PAGE > 0 then 1 else 0)
  if pc > MAX_ACCESSIBLE_PAGES then MAX_ACCESSIBLE_PAGES else pc

/-! ## Claim C1 — URL validation -/

/-- Claim C1 (code bug): the claim states that a search URL is accepted only
if it carries one of the fixed Rightmove prefixes AND the initial fetch
returned status 200.  The code instead raises only when `any` of the
conditions fails to hold, i.e. it accepts a URL when the prefix matches OR
the status is 200: a well-prefixed URL with a non-200 response is accepted,
`https://example.com/find.html?` with a 200 response is accepted, and only a
URL failing both conditions is rejected. -/
theorem c1_url_validation_any_not_all :
    validate_url "https://www.rightmove.co.uk/property-to-rent/find.html?x=1"
      500 = .ok () ∧
    validate_url "https://example.com/find.html?" 200 = .ok () ∧
    validate_url "https://example.com/find.html?" 500 =
      .error (.valueError
        "Invalid rightmove search URL:\n\n\thttps://example.com/find.html?") := by
  refine ⟨rfl, rfl, rfl⟩

/-! ## Claim C5 — DMS hemisphere selection -/

/-- Claim C5 counterexample: the claim asserts that longitude `-0.1278`
formats with hemisphere `"E"`; by the code's own selection rule the truncated
degree value of `-0.1278` is `0`, which is `>= 0`, so the first element `'W'`
of the longitude pair is chosen, not `'E'`. -/
theorem c5_counterexample_lon_neg_small :
    (deg_to_dms (-(1278 : ℚ) / 10000) .lon).compass = 'W' ∧
    (deg_to_dms (-(1278 : ℚ) / 10000) .lon).compass ≠ 'E' := by
  constructor
  · norm_num [deg_to_dms, pytrunc]
  · norm_num [deg_to_dms, pytrunc]
    decide

/-- Claim C5 as amended: the hemisphere letter is taken from the pair
`(N, S)` for latitude and `(W, E)` for longitude, the first element when the
truncated degree value is `>= 0` and the second otherwise; concretely,
latitude `51.5074` formats with degrees `51` and hemisphere `'N'`, latitude
`-33.8688` with hemisphere `'S'`, longitude `-0.1278` with hemisphere `'W'`
(its truncated degree value being `0 >= 0`), and longitude `2.3522` with
hemisphere `'W'`. -/
theorem c5_amended_hemisphere_selection :
    (∀ deg : ℚ,
      (deg_to_dms deg .lat).compass = if 0 ≤ pytrunc deg then 'N' else 'S') ∧
    (∀ deg : ℚ,
      (deg_to_dms deg .lon).compass = if 0 ≤ pytrunc deg then 'W' else 'E') ∧
    (deg_to_dms ((515074 : ℚ) / 10000) .lat).degrees = 51 ∧
    (deg_to_dms ((515074 : ℚ) / 10000) .lat).compass = 'N' ∧
    (deg_to_dms (-(338688 : ℚ) / 10000) .lat).compass = 'S' ∧
    (deg_to_dms (-(1278 : ℚ) / 10000) .lon).compass = 'W' ∧
    (deg_to_dms ((23522 : ℚ) / 10000) .lon).compass = 'W' := by
  have htrunc : ∀ n : ℤ, pytrunc (n : ℚ) = n := by
    intro n
    by_cases h : 0 ≤ (n : ℚ)
    · simp [pytrunc, h]
    · have : ¬ (0 : ℚ) ≤ (n : ℚ) := h
      simp [pytrunc, this]
      rw [← Int.cast_neg, Int.floor_intCast]
      ring
  refine ⟨?_, ?_, ?_, ?_, ?_, ?_, ?_⟩
  · intro deg
    simp only [deg_to_dms, htrunc]
  · intro deg
    simp only [deg_to_dms, htrunc]
  · norm_num [deg_to_dms, pytrunc]
  · norm_num [deg_to_dms, pytrunc]
  · norm_num [deg_to_dms, pytrunc]
  · norm_num [deg_to_dms, pytrunc]
  · norm_num [deg_to_dms, pytrunc]

/-! ## Claim C7 — page-count arithmetic -/

/-- Claim C7: for every displayed result count `n`, the page count equals
`ceil(n / 24)` capped at `42`; in particular `100` results give `5` pages,
`1008` give exactly `42` (the boundary), and `2000` still give `42`. -/
theorem c7_page_count_ceil_capped :
    (∀ n : Nat, page_count n = min ((n + 23) / 24) 42) ∧
    page_count 100 = 5 ∧ page_count 1008 = 42 ∧ page_count 2000 = 42 := by
  refine ⟨?_, by decide, by decide, by decide⟩
  intro n
  simp only [page_count, MAX_RESULT_PER_PAGE, MAX_ACCESSIBLE_PAGES]
  rw [Nat.min_def]
  split_ifs <;> omega

/-! ## `src/scrapers.py`: per-listing deposit and address cells -/

/-- Insert a thousands separator after every third digit of a reversed digit
list (helper for the `"{:,}"` format specifier). -/
def group3 : List Char → List Char
  | a :: b :: c :: d :: rest => a :: b :: c :: ',' :: group3 (d :: rest)
  | ds => ds

/-- Python `"{:,.0f}".format(n)` for a natural number: decimal digits with a
comma as thousands separator and no decimal places. -/
def commaFormat (n : Nat) : String :=
  String.mk (group3 (toString n).data.reverse).reverse

/-- Python `"{:,.0f}".format(v)` on the modelled values: `float("nan")`
formats as `"nan"`, integers with thousands separators, booleans as `0`/`1`;
non-numeric values raise. -/
def pyFormatComma0 : PyVal → Except PyErr String
  | .nan => .ok "nan"
  | .int n => .ok (if n < 0 then "-" ++ commaFormat n.natAbs else commaFormat n.natAbs)
  | .bool b => .ok (if b then "1" else "0")
  | _ => .error (.typeError "unsupported format operand")

/-- Embedding of the deposit extraction in `RightmoveScraper._get_page`
(src/scrapers.py lines 265-270), as a function of the listing's `lettings`
sub-object: `deposit = lettings.get('deposit', np.nan)` followed by
`"£\x7b:,.0f\x7d".format(deposit or 0)`. -/
def deposit_cell (lettings : PyVal) : Except PyErr String :=
  match pyGet lettings "deposit" .nan with
  | .error e => .error e
  | .ok deposit =>
    let v := if truthy deposit then deposit else .int 0
    match pyFormatComma0 v with
    | .error e => .error e
    | .ok s => .ok ("£" ++ s)

/-- Python f-string rendering of a value (`f"{v}"`); the container cases are
approximations that no embedded call site reaches. -/
def pyFStr : PyVal → String
  | .none => "None"
  | .nan => "nan"
  | .bool b => if b then "True" else "False"
  | .int n => toString n
  | .str s => s
  | .list _ => "[...]"
  | .dict _ => "dict"

/-- Python `s.replace(old, '')` where `old` is an arbitrary value:
`TypeError` unless `old` is a string (in particular when it is `None`). -/
def pyReplaceVal (s : String) (old : PyVal) (new : String) : Except PyErr String :=
  match old with
  | .str o => .ok (pyReplaceStr s o new)
  | _ => .error (.typeError "replace() argument 1 must be str")

/-- Embedding of the address extraction in `RightmoveScraper._get_page`
(src/scrapers.py lines 315-338), as a function of the listing's
`propertyData` object: read `outcode`, `incode` and `displayAddress` with
`.get`, strip the two codes out of the display address, strip a trailing
comma, collapse whitespace, then join `"<outcode><incode>"` (when either code
is truthy) with the cleaned display address.  The surrounding `try` catches
only `KeyError`, turning it into the `np.nan` sentinel; any other exception
(such as the `TypeError` from `replace(None, '')`) propagates. -/
def address_cell (property_data : PyVal) : Except PyErr PyVal :=
  let inner : Except PyErr String :=
    match pyGet property_data "address" (.dict []) with
    | .error e => .error e
    | .ok address_data =>
      match pyGet address_data "outcode" .none with
      | .error e => .error e
      | .ok out_code =>
        match pyGet address_data "incode" .none with
        | .error e => .error e
        | .ok in_code =>
          match pyGet address_data "displayAddress" (.str "") with
          | .error e => .error e
          | .ok da0 =>
            match da0 with
            | .str da0s =>
              match pyReplaceVal da0s out_code "" with
              | .error e => .error e
              | .ok da1 =>
                match pyReplaceVal da1 in_code "" with
                | .error e => .error e
                | .ok da2 =>
                  let da3 := pyRstrip da2 ','
                  let display_address := replace_all_whitespaces da3 " "
                  let full_address : List String :=
                    (if truthy out_code || truthy in_code then
                      [pyFStr out_code ++ pyFStr in_code]
                    else []) ++
                    (if !display_address.isEmpty then [display_address] else [])
                  .ok (String.intercalate ", " full_address)
            | _ => .error (.attributeError "replace")
  match inner with
  | .ok s => .ok (.str s)
  | .error (.keyError _) => .ok .nan
  | .error e => .error e

/-! ## Claim C4 — deposit defaulting -/

/-- Claim C4 (code bug): the claim states that a listing whose `lettings`
object lacks the `deposit` key yields the cell `"£0"`.  The code defaults the
missing key to `np.nan`, and since `nan` is truthy in Python the `deposit or
0` fallback never fires, so the cell is `"£nan"`.  A present falsy deposit
(`None` or `0`) does yield `"£0"`, and present amounts format with thousands
separators as claimed. -/
theorem c4_deposit_missing_formats_nan :
    deposit_cell (.dict []) = .ok "£nan" ∧
    deposit_cell (.dict [("deposit", .none)]) = .ok "£0" ∧
    deposit_cell (.dict [("deposit", .int 0)]) = .ok "£0" ∧
    deposit_cell (.dict [("deposit", .int 5000)]) = .ok "£5,000" ∧
    deposit_cell (.dict [("deposit", .int 1234567)]) = .ok "£1,234,567" := by
  refine ⟨rfl, rfl, rfl, rfl, rfl⟩

/-! ## Claim C6 — address composition atomicity -/

/-- Claim C6 (code bug): the claim states that any key error during address
composition (for example a missing `outcode`) yields the `np.nan` sentinel
for the whole address field and extraction continues.  With both codes
present the composition works as described, but a missing `outcode` makes
`.get('outcode')` return `None`, and `displayAddress.replace(None, '')`
raises a `TypeError`, which the `except KeyError` handler does not catch: the
exception propagates and aborts the whole page extraction instead of
degrading to the sentinel. -/
theorem c6_address_missing_outcode_typeerror :
    address_cell (.dict [("address", .dict
      [("outcode", .str "SW1A"), ("incode", .str "1AA"),
       ("displayAddress", .str "12 Foo Street, London SW1A 1AA")])]) =
      .ok (.str "SW1A1AA, 12 Foo Street, London") ∧
    address_cell (.dict [("address", .dict
      [("incode", .str "1AA"),
       ("displayAddress", .str "12 Foo Street, London")])]) =
      .error (.typeError "replace() argument 1 must be str") := by
  refine ⟨rfl, rfl⟩

/-! ## `src/caches.py` — the file cache as its observable key→content map

The `FileCache` stores each payload in a file named by `uuid5(namespace, key)`
and records `key → path` in a `_hashmap.json` index; for a single cache root
this is observably an insertion-ordered map from cache key to file content,
which is how it is modelled here. -/

/-- Observable state of a `FileCache`: cache key → cached file content. -/
abbrev Cache := List (String × String)

/-- First binding of a key in a string-valued association list. -/
def strLookup : Cache → String → Option String
  | [], _ => Option.none
  | (k', v) :: rest, k => if k' = k then some v else strLookup rest k

/-- Insertion-ordered update of a string-valued association list. -/
def strDictSet : Cache → String → String → Cache
  | [], k, v => [(k, v)]
  | (k', v') :: rest, k, v =>
    if k' = k then (k, v) :: rest else (k', v') :: strDictSet rest k v

/-- Embedding of `FileCache.get_cached_file_content` (src/caches.py lines
42-50): the content recorded for the key, or absent (a key missing from the
hashmap and a hashmap entry whose backing file was deleted are both modelled
as a missing binding). -/
def get_cached_file_content (c : Cache) (hash_key : String) : Option String :=
  strLookup c hash_key

/-- Embedding of `FileCache.create_cache_file` (src/caches.py lines 36-40):
record `key → content`, overwriting deterministically on re-caching. -/
def create_cache_file (c : Cache) (hash_key content : String) : Cache :=
  strDictSet c hash_key content

/-! ## `src/apis.py` — the Google Maps directions client -/

/-- Hexadecimal digit character (uppercase, as `urllib.parse.quote` emits). -/
def hexDigit (n : Nat) : Char :=
  if n < 10 then Char.ofNat ('0'.toNat + n) else Char.ofNat ('A'.toNat + (n - 10))

/-- Percent-encoding of one character (ASCII range, one byte). -/
def percentEncode (c : Char) : List Char :=
  ['%', hexDigit (c.toNat / 16 % 16), hexDigit (c.toNat % 16)]

/-- Encoding of one character under `urllib.parse.quote_plus`: unreserved
characters pass through, a space becomes `+`, everything else is
percent-encoded. -/
def quotePlusChar (c : Char) : List Char :=
  if c.isAlphanum || c = '_' || c = '.' || c = '-' || c = '~' then [c]
  else if c = ' ' then ['+']
  else percentEncode c

/-- Model of `urllib.parse.quote_plus` on ASCII strings. -/
def quote_plus (s : String) : String :=
  String.mk (s.data.flatMap quotePlusChar)

/-- Model of `urllib.parse.urlencode` on an insertion-ordered parameter
list. -/
def urlencode (params : List (String × String)) : String :=
  String.intercalate "&" (params.map (fun kv => quote_plus kv.1 ++ "=" ++ quote_plus kv.2))

/-- Base url of the provider (`GoogleMapsApi.API_BASE_URL`). -/
def API_BASE_URL : String := "https://maps.googleapis.com/maps/api"

/-- Embedding of `GoogleMapsApi._build_api_call_url` (src/apis.py lines
121-125) with the response type fixed to `"json"` (the only value the
constructor accepts): append the API key to the parameters and URL-encode
them all. -/
def build_api_call_url (api_key : String) (params : List (String × String))
    (service : String) : String :=
  API_BASE_URL ++ "/" ++ service ++ "/json?" ++ urlencode (params ++ [("key", api_key)])

/-- Escape of one character inside a JSON string literal. -/
def jsonEscapeChar (c : Char) : List Char :=
  if c = '"' then ['\\', '"']
  else if c = '\\' then ['\\', '\\']
  else if c = '\n' then ['\\', 'n']
  else if c = '\t' then ['\\', 't']
  else if c = '\r' then ['\\', 'r']
  else [c]

/-- Escape of a JSON string body. -/
def jsonEscape (s : String) : String :=
  String.mk (s.data.flatMap jsonEscapeChar)

mutual

/-- Model of `json.dumps(v, separators=(',', ':'))`: compact JSON with no
whitespace (Python renders `float("nan")` as the literal `NaN`). -/
def jsonDumps : PyVal → String
  | .none => "null"
  | .nan => "NaN"
  | .bool b => if b then "true" else "false"
  | .int n => toString n
  | .str s => "\"" ++ jsonEscape s ++ "\""
  | .list xs => "[" ++ jsonDumpsList xs ++ "]"
  | .dict kvs => "\x7b" ++ jsonDumpsDict kvs ++ "\x7d"

/-- Comma-separated compact rendering of a JSON array body. -/
def jsonDumpsList : List PyVal → String
  | [] => ""
  | [x] => jsonDumps x
  | x :: y :: rest => jsonDumps x ++ "," ++ jsonDumpsList (y :: rest)

/-- Comma-separated compact rendering of a JSON object body. -/
def jsonDumpsDict : List (String × PyVal) → String
  | [] => ""
  | [(k, v)] => "\"" ++ jsonEscape k ++ "\":" ++ jsonDumps v
  | (k, v) :: x :: rest =>
    "\"" ++ jsonEscape k ++ "\":" ++ jsonDumps v ++ "," ++ jsonDumpsDict (x :: rest)

end

/-- Whitespace skipping for the JSON parser. -/
def skipWs : List Char → List Char
  | [] => []
  | c :: cs => if c = ' ' || c = '\t' || c = '\n' || c = '\r' then skipWs cs else c :: cs

/-- Body of a JSON string literal up to its closing quote (common escape
sequences only). -/
def parseStringBody : List Char → List Char → Option (String × List Char)
  | [], _ => Option.none
  | '"' :: rest, acc => some (String.mk acc.reverse, rest)
  | '\\' :: c :: rest, acc =>
    if c = '"' then parseStringBody rest ('"' :: acc)
    else if c = '\\' then parseStringBody rest ('\\' :: acc)
    else if c = '/' then parseStringBody rest ('/' :: acc)
    else if c = 'n' then parseStringBody rest ('\n' :: acc)
    else if c = 't' then parseStringBody rest ('\t' :: acc)
    else if c = 'r' then parseStringBody rest ('\r' :: acc)
    else Option.none
  | c :: rest, acc => parseStringBody rest (c :: acc)

/-- Leading decimal digits of a character list. -/
def parseDigits : List Char → List Char × List Char
  | [] => ([], [])
  | c :: cs =>
    if c.isDigit then
      let (ds, r) := parseDigits cs
      (c :: ds, r)
    else ([], c :: cs)

/-- Numeric value of a digit list. -/
def digitsVal (ds : List Char) : Nat :=
  ds.foldl (fun acc c => acc * 10 + (c.toNat - '0'.toNat)) 0

mutual

/-- Fueled JSON value parser (objects, arrays, strings, integers, literals;
the cached payloads this system stores contain only objects of strings). -/
def parseVal : Nat → List Char → Option (PyVal × List Char)
  | 0, _ => Option.none
  | fuel + 1, cs =>
    match skipWs cs with
    | 'n' :: 'u' :: 'l' :: 'l' :: rest => some (.none, rest)
    | 't' :: 'r' :: 'u' :: 'e' :: rest => some (.bool true, rest)
    | 'f' :: 'a' :: 'l' :: 's' :: 'e' :: rest => some (.bool false, rest)
    | 'N' :: 'a' :: 'N' :: rest => some (.nan, rest)
    | '"' :: rest =>
      match parseStringBody rest [] with
      | some (s, r) => some (.str s, r)
      | Option.none => Option.none
    | '[' :: rest =>
      match skipWs rest with
      | ']' :: r => some (.list [], r)
      | cs' => parseListItems fuel cs' []
    | '\x7b' :: rest =>
      match skipWs rest with
      | '\x7d' :: r => some (.dict [], r)
      | cs' => parseDictItems fuel cs' []
    | '-' :: rest =>
      match parseDigits rest with
      | ([], _) => Option.none
      | (ds, r) => some (.int (-(digitsVal ds : Int)), r)
    | c :: rest =>
      if c.isDigit then
        match parseDigits (c :: rest) with
        | (ds, r) => some (.int (digitsVal ds), r)
      else Option.none
    | [] => Option.none

/-- Fueled parser for the items of a JSON array after its opening bracket. -/
def parseListItems : Nat → List Char → List PyVal → Option (PyVal × List Char)
  | 0, _, _ => Option.none
  | fuel + 1, cs, acc =>
    match parseVal fuel cs with
    | some (v, rest) =>
      match skipWs rest with
      | ',' :: r => parseListItems fuel r (v :: acc)
      | ']' :: r => some (.list (v :: acc).reverse, r)
      | _ => Option.none
    | Option.none => Option.none

/-- Fueled parser for the entries of a JSON object after its opening
brace. -/
def parseDictItems : Nat → List Char → List (String × PyVal) →
    Option (PyVal × List Char)
  | 0, _, _ => Option.none
  | fuel + 1, cs, acc =>
    match skipWs cs with
    | '"' :: rest =>
      match parseStringBody rest [] with
      | some (k, r1) =>
        match skipWs r1 with
        | ':' :: r2 =>
          match parseVal fuel r2 with
          | some (v, r3) =>
            match skipWs r3 with
            | ',' :: r4 => parseDictItems fuel r4 ((k, v) :: acc)
            | '\x7d' :: r4 => some (.dict ((k, v) :: acc).reverse, r4)
            | _ => Option.none
          | Option.none => Option.none
        | _ => Option.none
      | Option.none => Option.none
    | _ => Option.none

end

/-- Model of `json.loads`: parse the whole string, raising `ValueError` on
malformed input (as the Python function does). -/
def jsonLoads (s : String) : Except PyErr PyVal :=
  match parseVal (2 * s.data.length + 2) s.data with
  | some (v, rest) =>
    if (skipWs rest).isEmpty then .ok v else .error (.valueError "Extra data")
  | Option.none => .error (.valueError "Expecting value")

/-- Embedding of `GoogleMapsApi._get_cache` (src/apis.py lines 127-141):
absent when no cache is configured, when the key has no entry, or when the
stored content is empty; otherwise the parsed JSON content (a parse failure
raises, as `json.loads` does). -/
def get_cache (file_cache : Option Cache) (url : String) :
    Except PyErr (Option PyVal) :=
  match file_cache with
  | Option.none => .ok Option.none
  | some c =>
    match get_cached_file_content c url with
    | Option.none => .ok Option.none
    | some content =>
      if content = "" then .ok Option.none
      else
        match jsonLoads content with
        | .ok v => .ok (some v)
        | .error e => .error e

/-- Embedding of `GoogleMapsApi._save_cache` (src/apis.py lines 143-153):
ignore when no cache is configured or the response text is empty, otherwise
record the response under the key. -/
def save_cache (file_cache : Option Cache) (url response : String) : Option Cache :=
  match file_cache with
  | Option.none => Option.none
  | some c => if response = "" then some c else some (create_cache_file c url response)

/-- Request parameters of a directions call, in construction order:
mandatory `origin` and `destination`, then `mode` and `arrival_time` only
when provided (src/apis.py lines 57-66). -/
def directions_params (origin place_id : String) (mode arrival_time : Option String) :
    List (String × String) :=
  [("origin", origin), ("destination", "place_id:" ++ place_id)] ++
  (match mode with
   | some m => [("mode", m)]
   | Option.none => []) ++
  (match arrival_time with
   | some a => [("arrival_time", a)]
   | Option.none => [])

/-- The fully built directions request URL, which is also the cache key. -/
def directions_url (api_key origin place_id : String)
    (mode arrival_time : Option String) : String :=
  build_api_call_url api_key (directions_params origin place_id mode arrival_time)
    "directions"

/-- An HTTP response as `get_directions` observes it: the status code and the
already-decoded JSON body (`response.json()`). -/
structure HttpResponse where
  status_code : Nat
  body : PyVal

/-- The default empty direction result built at the top of `get_directions`. -/
def empty_direction : PyVal := .dict [("distance", .none), ("duration", .none)]

/-- Embedding of the `try`-block of `get_directions` (src/apis.py lines
92-98): read `routes[0].legs[0]` where `routes` defaults to `[]` and `legs`
to an empty record; only `KeyError` is caught (substituting the empty
record), so the `IndexError` raised by indexing an empty list propagates. -/
def get_directions_leg (content : PyVal) : Except PyErr PyVal :=
  let attempt : Except PyErr PyVal :=
    match pyGet content "routes" (.list []) with
    | .error e => .error e
    | .ok routes =>
      match pyGetItemIdx routes 0 with
      | .error e => .error e
      | .ok r0 =>
        match pyGet r0 "legs" (.dict []) with
        | .error e => .error e
        | .ok legs => pyGetItemIdx legs 0
  match attempt with
  | .ok leg => .ok leg
  | .error (.keyError _) => .ok (.dict [])
  | .error e => .error e

/-- Embedding of `GoogleMapsApi.get_directions` (src/apis.py lines 50-119),
parameterized by the HTTP response that `requests.get(url)` would return.
The result pairs the returned direction value with the cache state after the
call.  Control flow follows the source: consult the cache under the fully
built request URL; on a miss, return the empty direction on a non-200 status
or a provider status other than `"OK"`; read the first leg through
`get_directions_leg`; return the empty direction when `duration.text` or
`distance.text` is missing; otherwise extract both texts, serialize the
minimal result compactly and store it in the cache under the URL. -/
def get_directions (api_key : String) (file_cache : Option Cache)
    (origin place_id : String) (mode arrival_time : Option String)
    (resp : HttpResponse) : Except PyErr (PyVal × Option Cache) :=
  let url := directions_url api_key origin place_id mode arrival_time
  match get_cache file_cache url with
  | .error e => .error e
  | .ok (some content) => .ok (content, file_cache)
  | .ok Option.none =>
    if resp.status_code ≠ 200 then .ok (empty_direction, file_cache)
    else
      match pyGet resp.body "status" .none with
      | .error e => .error e
      | .ok st =>
        if !pyEq st (.str "OK") then .ok (empty_direction, file_cache)
        else
          match get_directions_leg resp.body with
          | .error e => .error e
          | .ok leg =>
            match nested_key_exists leg ["duration", "text"] with
            | .error e => .error e
            | .ok false => .ok (empty_direction, file_cache)
            | .ok true =>
              match nested_key_exists leg ["distance", "text"] with
              | .error e => .error e
              | .ok false => .ok (empty_direction, file_cache)
              | .ok true =>
                match pyGet leg "duration" (.dict []) with
                | .error e => .error e
                | .ok durObj =>
                  match pyGet durObj "text" .none with
                  | .error e => .error e
                  | .ok duration =>
                    match pyGet leg "distance" (.dict []) with
                    | .error e => .error e
                    | .ok distObj =>
                      match pyGet distObj "text" .none with
                      | .error e => .error e
                      | .ok distance =>
                        let direction :=
                          PyVal.dict [("distance", distance), ("duration", duration)]
                        .ok (direction,
                          save_cache file_cache url (jsonDumps direction))

/-- Compact JSON of a dictionary is never the empty string (it starts with an
opening brace), so `save_cache` always stores it. -/
theorem jsonDumps_dict_ne_empty (l : List (String × PyVal)) :
    jsonDumps (.dict l) ≠ "" := by
  intro h
  have h2 := congrArg String.data h
  simp [jsonDumps, String.data_append] at h2

/-! ## Claim C2 — directions result/caching contract -/

/-- Claim C2: with a file cache configured and no cache hit for the built
request URL, a non-200 HTTP response, a provider-level status other than
`"OK"`, and a 200/`"OK"` response whose first leg lacks `duration.text` or
`distance.text` each return the empty `{distance: None, duration: None}`
result and leave the cache unchanged; a full-success response returns the
extracted `{distance, duration}` and writes exactly one cache entry, keyed by
the fully built request URL, containing the minimal result serialized as
compact JSON. -/
theorem c2_directions_cache_contract
    (api_key origin place_id : String) (mode arrival_time : Option String)
    (c : Cache) (resp : HttpResponse)
    (hmiss : strLookup c (directions_url api_key origin place_id mode arrival_time) =
      Option.none) :
    (resp.status_code ≠ 200 →
      get_directions api_key (some c) origin place_id mode arrival_time resp =
        .ok (empty_direction, some c)) ∧
    (∀ kvs, resp.status_code = 200 → resp.body = .dict kvs →
      pyEq (dictGetD kvs "status" .none) (.str "OK") = false →
      get_directions api_key (some c) origin place_id mode arrival_time resp =
        .ok (empty_direction, some c)) ∧
    (∀ kvs rkvs rt lkvs lt, resp.status_code = 200 → resp.body = .dict kvs →
      dictGetD kvs "status" .none = .str "OK" →
      dictGetD kvs "routes" (.list []) = .list (.dict rkvs :: rt) →
      dictGetD rkvs "legs" (.dict []) = .list (.dict lkvs :: lt) →
      nested_key_exists (.dict lkvs) ["duration", "text"] = .ok false →
      get_directions api_key (some c) origin place_id mode arrival_time resp =
        .ok (empty_direction, some c)) ∧
    (∀ kvs rkvs rt lkvs lt, resp.status_code = 200 → resp.body = .dict kvs →
      dictGetD kvs "status" .none = .str "OK" →
      dictGetD kvs "routes" (.list []) = .list (.dict rkvs :: rt) →
      dictGetD rkvs "legs" (.dict []) = .list (.dict lkvs :: lt) →
      nested_key_exists (.dict lkvs) ["duration", "text"] = .ok true →
      nested_key_exists (.dict lkvs) ["distance", "text"] = .ok false →
      get_directions api_key (some c) origin place_id mode arrival_time resp =
        .ok (empty_direction, some c)) ∧
    (∀ kvs rkvs rt lkvs lt dkvs ikvs du di,
      resp.status_code = 200 → resp.body = .dict kvs →
      dictGetD kvs "status" .none = .str "OK" →
      dictGetD kvs "routes" (.list []) = .list (.dict rkvs :: rt) →
      dictGetD rkvs "legs" (.dict []) = .list (.dict lkvs :: lt) →
      pyLookup lkvs "duration" = some (.dict dkvs) →
      pyLookup dkvs "text" = some du →
      pyLookup lkvs "distance" = some (.dict ikvs) →
      pyLookup ikvs "text" = some di →
      get_directions api_key (some c) origin place_id mode arrival_time resp =
        .ok (.dict [("distance", di), ("duration", du)],
          some (create_cache_file c
            (directions_url api_key origin place_id mode arrival_time)
            (jsonDumps (.dict [("distance", di), ("duration", du)]))))) := by
  refine ⟨?_, ?_, ?_, ?_, ?_⟩
  · intro h
    simp [get_directions, get_cache, get_cached_file_content, hmiss, h]
  · intro kvs h200 hbody hst
    simp [get_directions, get_cache, get_cached_file_content, hmiss, h200, hbody,
      pyGet, hst]
  · intro kvs rkvs rt lkvs lt h200 hbody hst hroutes hlegs hdur
    simp [get_directions, get_cache, get_cached_file_content, hmiss, h200, hbody,
      pyGet, hst, pyEq, get_directions_leg, pyGetItemIdx, hroutes, hlegs, hdur]
  · intro kvs rkvs rt lkvs lt h200 hbody hst hroutes hlegs hdur hdist
    simp [get_directions, get_cache, get_cached_file_content, hmiss, h200, hbody,
      pyGet, hst, pyEq, get_directions_leg, pyGetItemIdx, hroutes, hlegs, hdur,
      hdist]
  · intro kvs rkvs rt lkvs lt dkvs ikvs du di h200 hbody hst hroutes hlegs
      hdur hdurt hdist hdistt
    have hdur2 : dictGetD lkvs "duration" (.dict []) = .dict dkvs := by
      simp [dictGetD, hdur]
    have hdurt2 : dictGetD dkvs "text" .none = du := by
      simp [dictGetD, hdurt]
    have hdist2 : dictGetD lkvs "distance" (.dict []) = .dict ikvs := by
      simp [dictGetD, hdist]
    have hdistt2 : dictGetD ikvs "text" .none = di := by
      simp [dictGetD, hdistt]
    have hleg : get_directions_leg (.dict kvs) = .ok (.dict lkvs) := by
      simp [get_directions_leg, pyGet, pyGetItemIdx, hroutes, hlegs]
    have hdurex : nested_key_exists (.dict lkvs) ["duration", "text"] = .ok true := by
      simp [nested_key_exists, pyGetItemStr, hdur, hdurt]
    have hdistex : nested_key_exists (.dict lkvs) ["distance", "text"] = .ok true := by
      simp [nested_key_exists, pyGetItemStr, hdist, hdistt]
    simp [get_directions, get_cache, get_cached_file_content, hmiss, h200, hbody,
      pyGet, hst, pyEq, hleg, hdurex, hdistex, hdur2, hdurt2, hdist2, hdistt2,
      save_cache, jsonDumps_dict_ne_empty]

/-- Claim C2 witness: the five paths of the contract at concrete inputs, with
an empty configured cache (a miss for every key). -/
theorem c2_directions_cache_contract_witness :
    (get_directions "KEY" (some []) "51.5,-0.1" "PLACE" (some "transit")
      (some "1700000000") ⟨500, .none⟩ = .ok (empty_direction, some [])) ∧
    (get_directions "KEY" (some []) "51.5,-0.1" "PLACE" (some "transit")
      (some "1700000000") ⟨200, .dict [("status", .str "REQUEST_DENIED")]⟩ =
      .ok (empty_direction, some [])) ∧
    (get_directions "KEY" (some []) "51.5,-0.1" "PLACE" (some "transit")
      (some "1700000000") ⟨200, .dict [("status", .str "OK"),
        ("routes", .list [.dict [("legs", .list [.dict []])]])]⟩ =
      .ok (empty_direction, some [])) ∧
    (get_directions "KEY" (some []) "51.5,-0.1" "PLACE" (some "transit")
      (some "1700000000") ⟨200, .dict [("status", .str "OK"),
        ("routes", .list [.dict [("legs", .list [.dict
          [("duration", .dict [("text", .str "10 mins")])]])]])]⟩ =
      .ok (empty_direction, some [])) ∧
    (get_directions "KEY" (some []) "51.5,-0.1" "PLACE" (some "transit")
      (some "1700000000") ⟨200, .dict [("status", .str "OK"),
        ("routes", .list [.dict [("legs", .list [.dict
          [("duration", .dict [("text", .str "10 mins")]),
           ("distance", .dict [("text", .str "2.1 km")])]])]])]⟩ =
      .ok (.dict [("distance", .str "2.1 km"), ("duration", .str "10 mins")],
        some (create_cache_file []
          (directions_url "KEY" "51.5,-0.1" "PLACE" (some "transit")
            (some "1700000000"))
          (jsonDumps (.dict [("distance", .str "2.1 km"),
            ("duration", .str "10 mins")]))))) := by
  refine ⟨?_, ?_, ?_, ?_, ?_⟩
  · exact (c2_directions_cache_contract "KEY" "51.5,-0.1" "PLACE" (some "transit")
      (some "1700000000") [] ⟨500, .none⟩ rfl).1 (by decide)
  · exact (c2_directions_cache_contract "KEY" "51.5,-0.1" "PLACE" (some "transit")
      (some "1700000000") [] _ rfl).2.1 _ rfl rfl rfl
  · exact (c2_directions_cache_contract "KEY" "51.5,-0.1" "PLACE" (some "transit")
      (some "1700000000") [] _ rfl).2.2.1 _ _ _ _ _ rfl rfl rfl rfl rfl rfl
  · exact (c2_directions_cache_contract "KEY" "51.5,-0.1" "PLACE" (some "transit")
      (some "1700000000") [] _ rfl).2.2.2.1 _ _ _ _ _ rfl rfl rfl rfl rfl rfl rfl
  · exact (c2_directions_cache_contract "KEY" "51.5,-0.1" "PLACE" (some "transit")
      (some "1700000000") [] _ rfl).2.2.2.2 _ _ _ _ _ _ _ _ _ rfl rfl rfl rfl
      rfl rfl rfl rfl rfl

/-! ## Claim C3 — directions lookup never propagates errors -/

/-- Claim C3 (code bug): the claim states that `get_directions` never raises,
with missing `routes`/`legs` indices tolerated by substituting an empty
record.  The `try` block catches only `KeyError`, but indexing the empty
`routes` list raises `IndexError`, which propagates to the caller: a
200/`"OK"` response with `routes = []` makes the call raise instead of
returning the empty result. -/
theorem c3_empty_routes_raises_indexerror :
    get_directions "KEY" Option.none "51.5,-0.1" "PLACE" Option.none Option.none
      ⟨200, .dict [("status", .str "OK"), ("routes", .list [])]⟩ =
      .error .indexError := by
  rfl

/-! ## `src/scrapers.py` — pagination (`_get_results`) -/

/-- URL of a subsequent results page: the original search URL with an
`&index=<page * 24>` query parameter appended (src/scrapers.py line 383). -/
def page_url (url : String) (p : Nat) : String :=
  url ++ "&index=" ++ toString (p * MAX_RESULT_PER_PAGE)

/-- Pagination loop of `_get_results` (src/scrapers.py lines 380-397) over
the remaining page indexes, accumulating scraped rows: fetch each page URL in
order and stop at the first non-200 status (`break`), keeping the rows
gathered so far.  `request` stands for `RightmoveScraper._request` and
`get_page` for `RightmoveScraper._get_page`.  The second component of the
result records the page indexes actually requested, mirroring the sequence
of `requests.get` calls the loop issues. -/
def paginate {C R : Type} (url : String) (request : String → Nat × C)
    (get_page : C → List R) : List Nat → List R → List R × List Nat
  | [], acc => (acc, [])
  | p :: ps, acc =>
    let r := request (page_url url p)
    if r.1 ≠ 200 then (acc, [p])
    else
      let rest := paginate url request get_page ps (acc ++ get_page r.2)
      (rest.1, p :: rest.2)

/-- Embedding of `RightmoveScraper._get_results` (src/scrapers.py lines
374-399): scrape the stored first page, then iterate over page indexes
`1 .. page_count - 1` (Python `range(1, page_count)`), concatenating each
scraped page.  `_clean_results` only resets the index and stamps the
`search_date` column, so it acts as the identity on the modelled row
lists. -/
def get_results {C R : Type} (url : String) (request : String → Nat × C)
    (get_page : C → List R) (first_page : C) (pageCount : Nat) :
    List R × List Nat :=
  paginate url request get_page (List.range' 1 (pageCount - 1)) (get_page first_page)

/-- Unrolling of the pagination loop over a prefix of pages that all return
status 200. -/
theorem paginate_ok_prefix {C R : Type} (url : String) (request : String → Nat × C)
    (get_page : C → List R) (l l' : List Nat) (acc : List R)
    (h : ∀ p ∈ l, (request (page_url url p)).1 = 200) :
    paginate url request get_page (l ++ l') acc =
      ((paginate url request get_page l'
          (acc ++ l.flatMap (fun p => get_page (request (page_url url p)).2))).1,
        l ++ (paginate url request get_page l'
          (acc ++ l.flatMap (fun p => get_page (request (page_url url p)).2))).2) := by
  induction l generalizing acc with
  | nil => simp
  | cons p ps ih =>
    have hp : (request (page_url url p)).1 = 200 := h p (List.mem_cons_self p ps)
    have hps : ∀ q ∈ ps, (request (page_url url q)).1 = 200 := by
      intro q hq
      exact h q (List.mem_cons_of_mem p hq)
    simp only [List.cons_append, paginate, hp]
    simp [ih (acc ++ get_page (request (page_url url p)).2) hps, List.append_assoc]

/-! ## Claim C8 — pagination partial failure -/

/-- Claim C8: if fetching subsequent results page `k` (with pages
`1 .. k - 1` all succeeding) returns a non-200 status, pagination stops
immediately: the crawl result holds exactly the rows of the first page and of
pages `1 .. k - 1`, the requested page indexes are exactly `1 .. k` (pages
after `k` are never attempted), and no error is raised (the embedded loop is
total and returns normally). -/
theorem c8_pagination_partial_failure {C R : Type} (url : String)
    (request : String → Nat × C) (get_page : C → List R) (first_page : C)
    (pageCount k : Nat) (h1 : 1 ≤ k) (h2 : k < pageCount)
    (hfail : (request (page_url url k)).1 ≠ 200)
    (hok : ∀ p ∈ List.range' 1 (k - 1), (request (page_url url p)).1 = 200) :
    get_results url request get_page first_page pageCount =
      (get_page first_page ++
        (List.range' 1 (k - 1)).flatMap (fun p => get_page (request (page_url url p)).2),
       List.range' 1 k) := by
  have hsplit : List.range' 1 (k - 1) ++ List.range' k (pageCount - k) =
      List.range' 1 (pageCount - 1) := by
    have h3 := List.range'_append 1 (k - 1) (pageCount - k) 1
    have h4 : 1 + 1 * (k - 1) = k := by omega
    have h5 : pageCount - k + (k - 1) = pageCount - 1 := by omega
    rw [h4, h5] at h3
    exact h3
  have hlast : List.range' 1 (k - 1) ++ [k] = List.range' 1 k := by
    have h3 := List.range'_append 1 (k - 1) 1 1
    have h4 : 1 + 1 * (k - 1) = k := by omega
    have h5 : 1 + (k - 1) = k := by omega
    rw [h4, h5] at h3
    simpa using h3
  obtain ⟨m, hm⟩ : ∃ m, pageCount - k = m + 1 := ⟨pageCount - k - 1, by omega⟩
  rw [get_results, ← hsplit, paginate_ok_prefix url request get_page _ _ _ hok, hm]
  simp only [List.range']
  simp [paginate, hfail, hlast]

/-- Claim C8 witness: five pages, page 3 returns status 500; the result keeps
the first page and pages 1-2, and only pages 1, 2, 3 are requested. -/
theorem c8_pagination_partial_failure_witness :
    get_results "U" (fun s => (if s = page_url "U" 3 then 500 else 200, s))
      (fun c => [c]) "FIRST" 5 =
      (["FIRST", "U&index=24", "U&index=48"], [1, 2, 3]) := by
  have h := c8_pagination_partial_failure "U"
    (fun s => (if s = page_url "U" 3 then 500 else 200, s)) (fun c => [c])
    "FIRST" 5 3 (by decide) (by decide) (by decide) (by decide)
  rw [h]
  rfl

/-! ## `src/main.py` — configuration validation of directions entries -/

/-- Embedding of the per-entry check of `is_valid_config` (src/main.py lines
44-58): an entry of `GOOGLE_MAPS_DIRECTIONS_DATA` is accepted iff it carries
the keys `place_id`, `mode`, `key` and `label`; `arrival_time` is never
checked (the source comment itself says "arrival_time is optional"). -/
def valid_directions_entry (direction_config : List (String × PyVal)) : Bool :=
  (pyLookup direction_config "place_id").isSome &&
  (pyLookup direction_config "mode").isSome &&
  (pyLookup direction_config "key").isSome &&
  (pyLookup direction_config "label").isSome

/-- Embedding of the `GOOGLE_MAPS_DIRECTIONS_DATA` portion of
`is_valid_config` (src/main.py lines 39-58) for a present, list-valued
configuration: `is_valid` survives the loop iff every entry passes the
per-entry check. -/
def is_valid_directions_data (entries : List (List (String × PyVal))) : Bool :=
  entries.all valid_directions_entry

/-- Loop body of `RightmoveScraper._get_directions_data` (src/scrapers.py
lines 359-371): for each configured entry, read `place_id`, `mode` and
`arrival_time` with unconditional subscripts (evaluation order of the call's
keyword arguments), call the directions client (abstracted as `gd`), then
read `key` and record the reduced `{distance, duration}` pair. -/
def get_directions_data_loop (origin : String)
    (gd : String → PyVal → PyVal → PyVal → PyVal) :
    List PyVal → Except PyErr (List (PyVal × PyVal))
  | [] => .ok []
  | e :: rest =>
    match pyGetItemStr e "place_id" with
    | .error er => .error er
    | .ok pid =>
      match pyGetItemStr e "mode" with
      | .error er => .error er
      | .ok mde =>
        match pyGetItemStr e "arrival_time" with
        | .error er => .error er
        | .ok arr =>
          let direction := gd origin pid mde arr
          match pyGetItemStr e "key" with
          | .error er => .error er
          | .ok k =>
            match pyGet direction "distance" .none with
            | .error er => .error er
            | .ok dist =>
              match pyGet direction "duration" .none with
              | .error er => .error er
              | .ok dur =>
                match get_directions_data_loop origin gd rest with
                | .error er => .error er
                | .ok tail =>
                  .ok ((k, .dict [("distance", dist), ("duration", dur)]) :: tail)

/-- Embedding of `RightmoveScraper._get_directions_data` (src/scrapers.py
lines 346-372): skip entirely when no API client is configured, the
directions configuration is empty, or either coordinate is missing; otherwise
run the loop with origin `"<latitude>,<longitude>"`. -/
def get_directions_data (google_maps_api : Bool) (config : List PyVal)
    (latitude longitude : Option String)
    (gd : String → PyVal → PyVal → PyVal → PyVal) :
    Except PyErr (List (PyVal × PyVal)) :=
  if !google_maps_api || config.isEmpty || latitude.isNone || longitude.isNone then
    .ok []
  else
    get_directions_data_loop (latitude.getD "" ++ "," ++ longitude.getD "") gd config

/-! ## Claim C9 — `arrival_time` validation/read mismatch -/

/-- Claim C9: a directions-configuration entry carrying `place_id`, `mode`,
`key` and `label` but no `arrival_time` passes configuration validation
(`arrival_time` is never required), yet the crawler's per-listing directions
lookup reads `direction_config['arrival_time']` unconditionally, so the same
entry makes the lookup raise `KeyError("arrival_time")`. -/
theorem c9_arrival_time_validation_read_mismatch
    (kvs : List (String × PyVal)) (gd : String → PyVal → PyVal → PyVal → PyVal)
    (hpid : (pyLookup kvs "place_id").isSome = true)
    (hmode : (pyLookup kvs "mode").isSome = true)
    (hkey : (pyLookup kvs "key").isSome = true)
    (hlabel : (pyLookup kvs "label").isSome = true)
    (harr : pyLookup kvs "arrival_time" = Option.none) :
    valid_directions_entry kvs = true ∧
    is_valid_directions_data [kvs] = true ∧
    get_directions_data true [.dict kvs] (some "51.5074") (some "-0.1278") gd =
      .error (.keyError "arrival_time") := by
  refine ⟨?_, ?_, ?_⟩
  · simp [valid_directions_entry, hpid, hmode, hkey, hlabel]
  · simp [is_valid_directions_data, valid_directions_entry, hpid, hmode, hkey, hlabel]
  · obtain ⟨vp, hvp⟩ := Option.isSome_iff_exists.mp hpid
    obtain ⟨vm, hvm⟩ := Option.isSome_iff_exists.mp hmode
    simp [get_directions_data, get_directions_data_loop, pyGetItemStr, hvp, hvm, harr]

/-- Claim C9 witness: a concrete entry with the four validated keys and no
`arrival_time`. -/
theorem c9_arrival_time_validation_read_mismatch_witness :
    valid_directions_entry
      [("place_id", .str "P1"), ("mode", .str "transit"),
       ("key", .str "work"), ("label", .str "Work")] = true ∧
    is_valid_directions_data
      [[("place_id", .str "P1"), ("mode", .str "transit"),
        ("key", .str "work"), ("label", .str "Work")]] = true ∧
    get_directions_data true
      [.dict [("place_id", .str "P1"), ("mode", .str "transit"),
        ("key", .str "work"), ("label", .str "Work")]]
      (some "51.5074") (some "-0.1278") (fun _ _ _ _ => .dict []) =
      .error (.keyError "arrival_time") :=
  c9_arrival_time_validation_read_mismatch
    [("place_id", .str "P1"), ("mode", .str "transit"),
     ("key", .str "work"), ("label", .str "Work")]
    (fun _ _ _ _ => .dict []) rfl rfl rfl rfl rfl

/-! ## `src/scrapers.py` — the scraper object and `refresh_data` -/

/-- Mutable state of a `RightmoveScraper` instance: the stored search URL,
the status code and body of the last first-page fetch, and the stored result
table (rows abstracted to an arbitrary type). -/
structure ScraperState (Row : Type) where
  url : String
  status_code : Nat
  first_page : String
  results : List Row

/-- Embedding of `RightmoveScraper.refresh_data` (src/scrapers.py lines
85-95), with `_request` and the full `_get_results` scrape abstracted as
parameters: default a falsy url argument to the stored URL, fetch it, store
the new status code, first page and URL, then validate; on validation failure
the `ValueError` is raised with the partial state already in place, otherwise
the results are recomputed and stored.  The result pairs the post-call state
with the raised error, if any. -/
def refresh_data {Row : Type} (request : String → Nat × String)
    (get_results_of : String → String → List Row)
    (s : ScraperState Row) (url_arg : Option String) :
    ScraperState Row × Option PyErr :=
  let url :=
    match url_arg with
    | Option.none => s.url
    | some u => if u = "" then s.url else u
  let r := request url
  let s1 : ScraperState Row :=
    { s with status_code := r.1, first_page := r.2, url := url }
  match validate_url s1.url s1.status_code with
  | .error e => (s1, some e)
  | .ok _ => ({ s1 with results := get_results_of s1.url s1.first_page }, Option.none)

/-! ## Claim C10 — refresh is not atomic on failure -/

/-- Claim C10: calling `refresh_data` with a (non-falsy) new URL that fails
validation raises the invalid-search-URL error, leaves the stored result
table unchanged (so `get_results` still returns the previous table), but has
already replaced the stored url, status code and first-page body with those
of the rejected new URL. -/
theorem c10_refresh_not_atomic {Row : Type} (request : String → Nat × String)
    (get_results_of : String → String → List Row) (s : ScraperState Row)
    (u : String) (e : PyErr) (hu : u ≠ "")
    (hv : validate_url u (request u).1 = .error e) :
    refresh_data request get_results_of s (some u) =
      (⟨u, (request u).1, (request u).2, s.results⟩, some e) := by
  simp [refresh_data, hu, hv]

/-- Claim C10 witness: refreshing with `https://example.com/find.html?`
fetched with status 500 fails validation; the stored results `[7, 8]` are
kept while url, status code and first page are already replaced. -/
theorem c10_refresh_not_atomic_witness :
    refresh_data (fun _ => (500, "BODY")) (fun _ _ => ([1] : List Nat))
      ⟨"https://www.rightmove.co.uk/property-to-rent/find.html?x=1", 200,
        "OLD", [7, 8]⟩ (some "https://example.com/find.html?") =
      (⟨"https://example.com/find.html?", 500, "BODY", [7, 8]⟩,
        some (.valueError
          "Invalid rightmove search URL:\n\n\thttps://example.com/find.html?")) :=
  c10_refresh_not_atomic (fun _ => (500, "BODY")) (fun _ _ => ([1] : List Nat))
    ⟨"https://www.rightmove.co.uk/property-to-rent/find.html?x=1", 200,
      "OLD", [7, 8]⟩ "https://example.com/find.html?" _ (by decide) rfl

end Move
